import Mathlib

/-!
# Verification of the Grafana ngalert core against its specification

Shallow embedding of:

* `public/app/features/alerting/unified/utils/alertmanager-config.ts`
  (receiver-usage check over the routing tree);
* `public/app/features/alerting/state/AlertingQueryRunner.ts`
  (the Live Query Runner);
* the Alertmanager configuration store contract, whose server-side Go
  implementation is not part of the sampled sources: it is modelled from the
  specification (§4.5, §6) and pinned, where possible, by the integration test
  `pkg/tests/api/alerting/api_alertmanager_configuration_test.go`.

TypeScript `Record<string, T>` objects are embedded as association lists
`List (String × T)` in insertion order; `undefined`-able fields become
`Option`.
-/

namespace Grafana

/-! ## Routing tree (`app/plugins/datasource/alertmanager/types` Route)

The TypeScript `Route` has optional fields `receiver?: string` and
`routes?: Route[]`. -/

inductive Route : Type where
  | mk (receiver : Option String) (routes : Option (List Route))

def Route.receiver : Route → Option String
  | .mk r _ => r

def Route.routes : Route → Option (List Route)
  | .mk _ rs => rs

/-- The children of a route node: `route.routes ?? []`. -/
def Route.children : Route → List Route
  | .mk _ none => []
  | .mk _ (some rs) => rs

/-- Embeds `isReceiverUsedInRoute` from
`public/app/features/alerting/unified/utils/alertmanager-config.ts`:
`(route.receiver === receiver || route.routes?.some(r => isReceiverUsedInRoute(receiver, r))) ?? false`.
In JS, when `route.routes` is `undefined` the `?.some` call is `undefined`
and `?? false` makes the whole expression `false` unless the receiver
matched. -/
def isReceiverUsedInRoute (receiver : String) : Route → Bool
  | .mk r rs =>
    r == some receiver ||
      (match rs with
       | none => false
       | some children => children.attach.any fun c => isReceiverUsedInRoute receiver c.1)
termination_by route => sizeOf route
decreasing_by
  simp_wf
  have h := List.sizeOf_lt_of_mem c.2
  omega

/-- A minimal embedding of `AlertManagerCortexConfig.alertmanager_config`:
only the fields the usage check touches. -/
structure AlertmanagerConfigPart where
  route : Option Route

structure AlertManagerCortexConfig where
  alertmanager_config : AlertmanagerConfigPart

/-- Embeds `isReceiverUsed` from `alertmanager-config.ts`:
`(config.alertmanager_config.route && isReceiverUsedInRoute(receiver, config.alertmanager_config.route)) ?? false`. -/
def isReceiverUsed (receiver : String) (config : AlertManagerCortexConfig) : Bool :=
  match config.alertmanager_config.route with
  | none => false
  | some route => isReceiverUsedInRoute receiver route

/-- All nodes of a routing tree: the node itself and, recursively, the nodes
of each nested route. -/
def Route.nodes : Route → List Route
  | .mk r rs =>
    .mk r rs ::
      (match rs with
       | none => []
       | some children => children.attach.flatMap fun c => Route.nodes c.1)
termination_by route => sizeOf route
decreasing_by
  simp_wf
  have h := List.sizeOf_lt_of_mem c.2
  omega

/-- The route nodes of a configuration: none when the root route is absent. -/
def configRouteNodes (config : AlertManagerCortexConfig) : List Route :=
  match config.alertmanager_config.route with
  | none => []
  | some route => route.nodes

theorem isReceiverUsedInRoute_iff (r : String) : ∀ route : Route,
    (isReceiverUsedInRoute r route = true ↔ ∃ n ∈ route.nodes, n.receiver = some r)
  | .mk recv rs => by
    have ih : ∀ c ∈ (Route.mk recv rs).children,
        (isReceiverUsedInRoute r c = true ↔ ∃ n ∈ c.nodes, n.receiver = some r) := by
      intro c hc
      have hlt : sizeOf c < sizeOf (Route.mk recv rs) := by
        cases rs with
        | none => simp [Route.children] at hc
        | some children =>
          simp only [Route.children] at hc
          have := List.sizeOf_lt_of_mem hc
          simp only [Route.mk.sizeOf_spec, Option.some.sizeOf_spec]
          omega
      exact isReceiverUsedInRoute_iff r c
    rw [isReceiverUsedInRoute.eq_def, Route.nodes.eq_def]
    cases rs with
    | none =>
      simp [Route.receiver]
    | some children =>
      simp only [Route.children] at ih
      have hany : (children.attach.any fun c => isReceiverUsedInRoute r c.1) = true ↔
          ∃ c ∈ children, isReceiverUsedInRoute r c = true := by
        simp
      have hmem : ∀ n : Route,
          (n ∈ children.attach.flatMap fun c => Route.nodes c.1) ↔
            ∃ c ∈ children, n ∈ c.nodes := by
        intro n; simp
      simp only [Bool.or_eq_true, beq_iff_eq, hany, Route.receiver]
      constructor
      · rintro (hr | ⟨c, hc, hused⟩)
        · exact ⟨.mk recv (some children), List.mem_cons_self _ _, hr⟩
        · obtain ⟨n, hn, hnr⟩ := (ih c hc).mp hused
          exact ⟨n, List.mem_cons_of_mem _ ((hmem n).mpr ⟨c, hc, hn⟩), hnr⟩
      · rintro ⟨n, hn, hnr⟩
        rcases List.mem_cons.mp hn with h | h
        · subst h
          exact Or.inl hnr
        · obtain ⟨c, hc, hcn⟩ := (hmem n).mp h
          exact Or.inr ⟨c, hc, (ih c hc).mpr ⟨n, hcn, hnr⟩⟩
termination_by route => sizeOf route
decreasing_by exact hlt

/-! ## Live Query Runner (`public/app/features/alerting/state/AlertingQueryRunner.ts`)

`Record<string, PanelData>` objects are embedded as association lists in
insertion order.  External collaborators from `@grafana/data`,
`@grafana/runtime` and `app/features/query` (out of scope per §1 of the
specification) are modelled where noted. -/

/-- `LoadingState` from `@grafana/data`. -/
inductive LoadingState : Type where
  | NotStarted
  | Loading
  | Streaming
  | Done
  | Error
deriving Repr, DecidableEq

/-- A data-frame field: its name and type, the parts
`compareDataFrameStructures` inspects. -/
structure FrameField where
  name : String
  ftype : String
deriving Repr, DecidableEq

/-- A data frame, reduced to its structural shape (field set/types). -/
structure DataFrame where
  fields : List FrameField
deriving Repr, DecidableEq

structure TimeRange where
  fromMs : Int
  toMs : Int
deriving Repr, DecidableEq

/-- A JavaScript `Error` delivered to the subscriber's error callback. -/
structure JsError where
  message : String
deriving Repr, DecidableEq

structure DataQueryError where
  message : String
deriving Repr, DecidableEq

/-- `PanelData` from `@grafana/data`, restricted to the fields the runner
reads or writes: `state`, `series`, `timeRange`, `error`, `structureRev`.
The latter two are optional in TypeScript. -/
structure PanelData where
  state : LoadingState
  series : List DataFrame
  timeRange : TimeRange
  error : Option DataQueryError := none
  structureRev : Option Nat := none
deriving Repr, DecidableEq

instance : Inhabited PanelData :=
  ⟨{ state := .NotStarted, series := [], timeRange := ⟨0, 0⟩ }⟩

/-- A relative time range (seconds back from now), as in
`GrafanaQuery.relativeTimeRange`. -/
structure RelativeTimeRange where
  fromSec : Nat
  toSec : Nat
deriving Repr, DecidableEq

/-- `GrafanaQuery` from `app/types/unified-alerting-dto`, restricted to the
fields the runner touches.  The query `model` of an expression query (the
`isExpressionQuery` branch of `getTimeRange`, whose guard and helper live
outside the sampled sources) is not represented: queries here carry plain
data-source models, for which that guard is `false`. -/
structure GrafanaQuery where
  refId : String
  relativeTimeRange : Option RelativeTimeRange
deriving Repr, DecidableEq

/-- Modelled from the spec: `getDefaultTimeRange` from `@grafana/data` is an
external collaborator; only its existence matters to the claims. -/
def getDefaultTimeRange : TimeRange := ⟨0, 0⟩

/-- Modelled from the spec: `rangeUtil.relativeToTimeRange` from
`@grafana/data` converts a relative range to an absolute one around "now"
(frozen at 0 here); the concrete arithmetic is irrelevant to the claims. -/
def relativeToTimeRange (r : RelativeTimeRange) : TimeRange :=
  ⟨0 - (r.fromSec : Int) * 1000, 0 - (r.toSec : Int) * 1000⟩

/-- Embeds `getTimeRange` from `AlertingQueryRunner.ts` (non-expression
queries, see `GrafanaQuery`): a query without a relative time range falls
back to the default range. -/
def getTimeRange (query : GrafanaQuery) (_queries : List GrafanaQuery) : TimeRange :=
  match query.relativeTimeRange with
  | none => getDefaultTimeRange
  | some r => relativeToTimeRange r

/-- Embeds `applyChange` from `AlertingQueryRunner.ts`: rebuild the record by
applying `change` to every entry. -/
def applyChange (initial : List (String × PanelData))
    (change : String → PanelData → PanelData) : List (String × PanelData) :=
  initial.map fun p => (p.1, change p.1 p.2)

/-- Embeds `initialState` from `AlertingQueryRunner.ts`: one entry per query,
keyed by `refId`, with the given state, empty series and the query's time
range. -/
def initialState (queries : List GrafanaQuery) (state : LoadingState) :
    List (String × PanelData) :=
  queries.map fun query =>
    (query.refId, { state := state, series := [], timeRange := getTimeRange query queries })

/-- Modelled from the spec: `compareDataFrameStructures` from `@grafana/data`
decides whether two frames have the same shape (field set/types). -/
def compareDataFrameStructures (a b : DataFrame) : Bool :=
  a.fields == b.fields

/-- Modelled from the spec: `compareArrayValues` from `@grafana/data` —
`true` iff same length and pairwise `cmp`. -/
def compareArrayValues (a b : List DataFrame) (cmp : DataFrame → DataFrame → Bool) : Bool :=
  a.length == b.length && (List.zip a b).all fun p => cmp p.1 p.2

/-- Modelled from the spec: `preProcessPanelData` from
`app/features/query/state/runRequest` (out-of-scope collaborator) prepares a
result for rendering without changing the delivered state or frame
structure; it is embedded as the identity. -/
def preProcessPanelData (data : PanelData) (_lastResult : Option PanelData) : PanelData :=
  data

/-- Embeds `setStructureRevision` from `AlertingQueryRunner.ts`.  The JS
guard `lastResult?.structureRev && lastResult.series` is: a previous result
exists, its `structureRev` is set and non-zero (`series` is always an array,
hence truthy). -/
def setStructureRevision (data : PanelData) (lastResult : Option PanelData) : PanelData :=
  let result := preProcessPanelData data lastResult
  let structureRev : Nat :=
    match lastResult with
    | none => 1
    | some prev =>
      match prev.structureRev with
      | none => 1
      | some r =>
        if r = 0 then 1
        else if compareArrayValues result.series prev.series compareDataFrameStructures
        then r
        else r + 1
  { result with structureRev := some structureRev }

/-- Modelled from the spec: `toDataQueryError` from `@grafana/runtime`
converts a thrown error into a query error carrying its message. -/
def toDataQueryError (e : JsError) : DataQueryError :=
  ⟨e.message⟩

/-- Embeds `mapErrorToPanelData` from `AlertingQueryRunner.ts`: every entry
of `lastResult` is switched to the `Error` state carrying the converted
query error; all other fields are spread through unchanged. -/
def mapErrorToPanelData (lastResult : List (String × PanelData)) (error : JsError) :
    List (String × PanelData) :=
  let queryError := toDataQueryError error
  applyChange lastResult fun _ data =>
    { data with state := LoadingState.Error, error := some queryError }

/-- Embeds `mapToPanelData` from `AlertingQueryRunner.ts`: one `Done` entry
per response entry, with the `timeRange` looked up from the initial record.
`dataFrameFromJSON` (external) is collapsed: frames arrive already decoded.
A response `refId` absent from `dataByQuery` makes the JS expression
`dataByQuery[refId].timeRange` throw; that crash is `none` here. -/
def mapToPanelData (dataByQuery : List (String × PanelData)) :
    List (String × List DataFrame) → Option (List (String × PanelData))
  | [] => some []
  | (refId, frames) :: rest =>
    match dataByQuery.lookup refId with
    | none => none
    | some d =>
      (mapToPanelData dataByQuery rest).map fun tail =>
        (refId, { timeRange := d.timeRange, state := LoadingState.Done, series := frames }) :: tail

/-- The batch request built by `runRequest`: `POST /api/v1/eval` with the
whole query list as body (the random `requestId` is omitted). -/
structure BackendSrvRequest where
  url : String
  method : String
  data : List GrafanaQuery
deriving Repr, DecidableEq

def runRequestRequest (queries : List GrafanaQuery) : BackendSrvRequest :=
  { url := "/api/v1/eval", method := "POST", data := queries }

/-- How the single fetch settles: a response (entries of
`AlertingQueryResponse.results`, in order) or a thrown error. -/
inductive FetchResult : Type where
  | response (results : List (String × List DataFrame))
  | failure (error : JsError)
deriving Repr, DecidableEq

/-- The environment of one `runRequest` call: how the fetch settles and
whether it settles before the 200 ms debounce timer fires. -/
structure FetchBehavior where
  result : FetchResult
  resolvesBeforeDebounce : Bool
deriving Repr, DecidableEq

/-- Embeds the observable built by `runRequest`:
`merge(timer(200).pipe(mapTo(initial), takeUntil(runningRequest)), runningRequest)`.
The fetch result is mapped by `mapToPanelData` and errors are caught into
`mapErrorToPanelData(initial, error)`; the all-`Loading` `initial` record is
emitted by the timer only when the fetch has not yet settled at 200 ms
(`takeUntil` suppresses it otherwise).  `none` models the crash of
`mapToPanelData` on a response key missing from `initial`. -/
def runRequestEmissions (queries : List GrafanaQuery) (behavior : FetchBehavior) :
    Option (List (List (String × PanelData))) :=
  let initial := initialState queries LoadingState.Loading
  let resolved : Option (List (String × PanelData)) :=
    match behavior.result with
    | .response results => mapToPanelData initial results
    | .failure error => some (mapErrorToPanelData initial error)
  resolved.map fun r =>
    if behavior.resolvesBeforeDebounce then [r] else [initial, r]

/-- The mutable state of an `AlertingQueryRunner` instance:
`this.subscription` (only whether it was ever assigned — `cancel` calls
`unsubscribe()` but never clears the field) and `this.lastResult`. -/
structure AlertingQueryRunner where
  subscriptionAssigned : Bool
  lastResult : List (String × PanelData)
deriving Repr, DecidableEq

/-- A fresh runner, as built by the constructor. -/
def newRunner : AlertingQueryRunner :=
  { subscriptionAssigned := false, lastResult := [] }

/-- The outcome of one runner operation or subscription callback: the new
field values, the records pushed to `this.subject` (in order), and the
backend requests issued. -/
structure StepResult where
  runner : AlertingQueryRunner
  emissions : List (List (String × PanelData))
  requests : List BackendSrvRequest
deriving Repr, DecidableEq

/-- Embeds `AlertingQueryRunner.run`: an empty query list short-circuits into
a single `subject.next` of `initialState([], Done)` without touching
`subscription` or `lastResult`; otherwise the runner subscribes to
`runRequest` (whose emissions arrive later through `onNext`/`onError`). -/
def AlertingQueryRunner.run (r : AlertingQueryRunner) (queries : List GrafanaQuery) :
    StepResult :=
  if queries.length = 0 then
    { runner := r, emissions := [initialState queries LoadingState.Done], requests := [] }
  else
    { runner := { r with subscriptionAssigned := true },
      emissions := [],
      requests := [runRequestRequest queries] }

/-- Embeds the `next` callback of the subscription made in
`AlertingQueryRunner.run`: merge structure revisions against
`this.lastResult`, store and emit. -/
def AlertingQueryRunner.onNext (r : AlertingQueryRunner)
    (dataPerQuery : List (String × PanelData)) : StepResult :=
  let nextResult := applyChange dataPerQuery fun refId data =>
    setStructureRevision data (r.lastResult.lookup refId)
  { runner := { r with lastResult := nextResult },
    emissions := [nextResult],
    requests := [] }

/-- Embeds the `error` callback of the subscription made in
`AlertingQueryRunner.run`. -/
def AlertingQueryRunner.onError (r : AlertingQueryRunner) (error : JsError) : StepResult :=
  let next := mapErrorToPanelData r.lastResult error
  { runner := { r with lastResult := next },
    emissions := [next],
    requests := [] }

/-- Embeds `AlertingQueryRunner.cancel`: an early return when
`this.subscription` was never assigned; otherwise every entry of
`this.lastResult` is forced to `Done` and the forced record is emitted iff
some entry was still `Loading` (`requestIsRunning` is set inside the
`applyChange` callback, i.e. iff some entry satisfies the check).  Neither
`this.subscription` nor `this.lastResult` is updated. -/
def AlertingQueryRunner.cancel (r : AlertingQueryRunner) : StepResult :=
  if !r.subscriptionAssigned then
    { runner := r, emissions := [], requests := [] }
  else
    let requestIsRunning := r.lastResult.any fun p => p.2.state == LoadingState.Loading
    let nextResult := applyChange r.lastResult fun _ data =>
      { data with state := LoadingState.Done }
    { runner := r,
      emissions := if requestIsRunning then [nextResult] else [],
      requests := [] }

/-- An event on a runner instance: a call to `run`, a delivery on the
subscription (`next`/`error`), or a call to `cancel`. -/
inductive RunnerEvent : Type where
  | run (queries : List GrafanaQuery)
  | next (dataPerQuery : List (String × PanelData))
  | error (e : JsError)
  | cancel
deriving Repr, DecidableEq

def AlertingQueryRunner.step (r : AlertingQueryRunner) : RunnerEvent → StepResult
  | .run queries => r.run queries
  | .next d => r.onNext d
  | .error e => r.onError e
  | .cancel => r.cancel

/-- Runs a sequence of events, collecting all subject emissions in order. -/
def runEvents : AlertingQueryRunner → List RunnerEvent →
    AlertingQueryRunner × List (List (String × PanelData))
  | r, [] => (r, [])
  | r, e :: es =>
    let s := r.step e
    let rest := runEvents s.runner es
    (rest.1, s.emissions ++ rest.2)

/-- The successive results delivered for one `refId`: its entry in each
emitted record that contains it. -/
def deliveredFor (refId : String) (emissions : List (List (String × PanelData))) :
    List PanelData :=
  emissions.filterMap fun e => e.lookup refId

/-- Same shape in the sense of the runner's comparison. -/
def sameStructure (a b : List DataFrame) : Bool :=
  compareArrayValues a b compareDataFrameStructures

/-- The last successful (`Done`) result strictly before index `k`. -/
def lastDoneBefore (ds : List PanelData) (k : Nat) : Option PanelData :=
  ((ds.take k).filter fun d => d.state == LoadingState.Done).getLast?

/-- The revision discipline asserted by claim C4 over the successive results
delivered for one `refId`: revisions never decrease, and whenever both the
previous and the current result carry a revision and a previous successful
result exists, the revision increments by one exactly when the current shape
differs from that previous successful result's shape, staying equal
otherwise. -/
def structureRevisionClaimCheck (ds : List PanelData) : Bool :=
  (List.range ds.length).all fun j =>
    if j = 0 then true
    else
      match (ds.getD (j - 1) default).structureRev, (ds.getD j default).structureRev with
      | some rp, some rc =>
        decide (rp ≤ rc) &&
          (match lastDoneBefore ds j with
           | some s =>
             if sameStructure (ds.getD j default).series s.series then rc == rp else rc == rp + 1
           | none => true)
      | _, _ => true

/-! ## Alertmanager configuration store

The server-side Go implementation (`pkg/services/ngalert`) is not among the
sampled sources — only its integration test
`pkg/tests/api/alerting/api_alertmanager_configuration_test.go` is.  The
store below is modelled from the specification (§4.5 apply-then-commit,
§6 Configuration API, §7) and pinned by that test where they meet: the
default configuration served on a blank instance, the `202` accepted status,
and the fact that a secure setting supplied in a `POST` — even with the
empty string as value — is stored and reported as set
(`secureFields.token == true` after posting `"token": ""`). -/

/-- A `grafana_managed_receiver_config` as it appears in a `POST` body
(`secureSettings` carries write-only secret values).  Constant metadata the
test pins to zero values (`id`, `frequency`, `created`, `updated`) is
omitted. -/
structure PostableGrafanaReceiver where
  uid : String
  name : String
  type : String
  disableResolveMessage : Bool
  sendReminder : Bool
  settings : List (String × String)
  secureSettings : List (String × String)
deriving Repr, DecidableEq

structure PostableApiReceiver where
  name : String
  grafana_managed_receiver_configs : List PostableGrafanaReceiver
deriving Repr, DecidableEq

structure PostableAmConfig where
  route : Option Route
  receivers : List PostableApiReceiver

structure PostableUserConfig where
  template_files : List (String × String)
  alertmanager_config : PostableAmConfig

/-- A receiver channel configuration at rest: secure settings are kept
(encrypted) server-side and never leave through a read. -/
structure StoredGrafanaReceiver where
  uid : String
  name : String
  type : String
  isDefault : Bool
  disableResolveMessage : Bool
  sendReminder : Bool
  settings : List (String × String)
  secureSettings : List (String × String)
deriving Repr, DecidableEq

structure StoredApiReceiver where
  name : String
  grafana_managed_receiver_configs : List StoredGrafanaReceiver
deriving Repr, DecidableEq

structure StoredUserConfig where
  template_files : List (String × String)
  route : Option Route
  receivers : List StoredApiReceiver

/-- A `grafana_managed_receiver_config` as served by `GET`: `secureFields`
maps each stored secure-setting name to a presence boolean; secret values
never appear. -/
structure GettableGrafanaReceiver where
  uid : String
  name : String
  type : String
  isDefault : Bool
  disableResolveMessage : Bool
  sendReminder : Bool
  settings : List (String × String)
  secureFields : List (String × Bool)
deriving Repr, DecidableEq

structure GettableApiReceiver where
  name : String
  grafana_managed_receiver_configs : List GettableGrafanaReceiver
deriving Repr, DecidableEq

structure GettableUserConfig where
  template_files : List (String × String)
  route : Option Route
  receivers : List GettableApiReceiver

/-- Modelled from the spec: the store exclusively owns the active
configuration (§3 Ownership). -/
structure ConfigStore where
  active : StoredUserConfig

/-- Modelled from the spec: "Secure settings supplied in a save request
replace prior secrets …; omitted secure fields retain previous values"
(§4.5) — with the supplied-value behavior pinned by the integration test,
which stores a secure setting supplied with the empty string and reports it
as set.  Supplied entries win; prior entries whose key is not supplied are
kept. -/
def mergeSecureSettings (prior supplied : List (String × String)) :
    List (String × String) :=
  supplied ++ prior.filter fun p => (supplied.lookup p.1).isNone

/-- The prior stored secure settings for a channel, located by receiver name
and channel name in the active configuration. -/
def priorSecureSettings (cfg : StoredUserConfig) (receiverName channelName : String) :
    List (String × String) :=
  match cfg.receivers.find? fun r => r.name == receiverName with
  | none => []
  | some r =>
    match r.grafana_managed_receiver_configs.find? fun c => c.name == channelName with
    | none => []
    | some c => c.secureSettings

/-- Modelled from the spec: how a posted channel is stored — plaintext
settings taken verbatim, secure settings merged against the prior secrets of
the same (receiver, channel), `isDefault` false for user-posted channels. -/
def storeGrafanaReceiver (priorCfg : StoredUserConfig) (receiverName : String)
    (c : PostableGrafanaReceiver) : StoredGrafanaReceiver :=
  { uid := c.uid
    name := c.name
    type := c.type
    isDefault := false
    disableResolveMessage := c.disableResolveMessage
    sendReminder := c.sendReminder
    settings := c.settings
    secureSettings :=
      mergeSecureSettings (priorSecureSettings priorCfg receiverName c.name) c.secureSettings }

def storeApiReceiver (priorCfg : StoredUserConfig) (r : PostableApiReceiver) :
    StoredApiReceiver :=
  { name := r.name
    grafana_managed_receiver_configs :=
      r.grafana_managed_receiver_configs.map (storeGrafanaReceiver priorCfg r.name) }

/-- The stored form of a posted configuration, merged against the prior
active configuration's secrets. -/
def storedOfPostable (priorCfg : StoredUserConfig) (cfg : PostableUserConfig) :
    StoredUserConfig :=
  { template_files := cfg.template_files
    route := cfg.alertmanager_config.route
    receivers := cfg.alertmanager_config.receivers.map (storeApiReceiver priorCfg) }

/-- The receiver names referenced by the routing tree, at any depth. -/
def referencedReceiverNames (route : Option Route) : List String :=
  match route with
  | none => []
  | some root => root.nodes.filterMap Route.receiver

/-- Modelled from the spec: structural validation (§4.5) — "receiver
existence": every receiver referenced by any route must exist in the
receiver list (§3 AlertmanagerConfiguration invariant). -/
def validateConfig (cfg : PostableUserConfig) : Bool :=
  (referencedReceiverNames cfg.alertmanager_config.route).all fun n =>
    cfg.alertmanager_config.receivers.any fun r => r.name == n

/-- Modelled from the spec: `POST` of a configuration — apply-then-commit
(§4.5).  Structural validation and a dry-run apply (`applyOk`, the
transient routing evaluator, left abstract) must both succeed for the
candidate to be committed, answered `202`; otherwise an error status is
returned and the active configuration is left untouched. -/
def postConfig (applyOk : StoredUserConfig → Bool) (store : ConfigStore)
    (cfg : PostableUserConfig) : Nat × ConfigStore :=
  if validateConfig cfg then
    if applyOk (storedOfPostable store.active cfg) then
      (202, { active := storedOfPostable store.active cfg })
    else (400, store)
  else (400, store)

def redactGrafanaReceiver (c : StoredGrafanaReceiver) : GettableGrafanaReceiver :=
  { uid := c.uid
    name := c.name
    type := c.type
    isDefault := c.isDefault
    disableResolveMessage := c.disableResolveMessage
    sendReminder := c.sendReminder
    settings := c.settings
    secureFields := c.secureSettings.map fun p => (p.1, true) }

def redactApiReceiver (r : StoredApiReceiver) : GettableApiReceiver :=
  { name := r.name
    grafana_managed_receiver_configs :=
      r.grafana_managed_receiver_configs.map redactGrafanaReceiver }

/-- Modelled from the spec: `GET` of the configuration — "Reads of
configuration never include secret values — only a mapping of field name →
is-set boolean" (§4.5): each stored secure setting becomes a `(name, true)`
presence entry; everything else is served verbatim. -/
def getConfig (store : ConfigStore) : GettableUserConfig :=
  { template_files := store.active.template_files
    route := store.active.route
    receivers := store.active.receivers.map redactApiReceiver }

/-- The default configuration served (and saved) on a blank instance, as
pinned by the integration test's first scenario. -/
def defaultStoredConfig : StoredUserConfig :=
  { template_files := []
    route := some (.mk (some "grafana-default-email") none)
    receivers :=
      [{ name := "grafana-default-email"
         grafana_managed_receiver_configs :=
           [{ uid := ""
              name := "email receiver"
              type := "email"
              isDefault := true
              disableResolveMessage := false
              sendReminder := false
              settings := [("addresses", "<example@email.com>")]
              secureSettings := [] }] }] }

/-- A blank instance's store: the default configuration is active. -/
def initialStore : ConfigStore :=
  { active := defaultStoredConfig }

/-! ### Occurrence of strings in payloads

To state that a secret "appears nowhere in the read result", we collect
every string a payload is built from. -/

def pairStrings (l : List (String × String)) : List String :=
  l.flatMap fun p => [p.1, p.2]

def gettableReceiverStrings (c : GettableGrafanaReceiver) : List String :=
  c.uid :: c.name :: c.type ::
    (pairStrings c.settings ++ c.secureFields.map Prod.fst)

/-- Every string occurring in a `GET` response body. -/
def gettableStrings (g : GettableUserConfig) : List String :=
  pairStrings g.template_files ++ referencedReceiverNames g.route ++
    g.receivers.flatMap fun r =>
      r.name :: r.grafana_managed_receiver_configs.flatMap gettableReceiverStrings

def storedReceiverPlainStrings (c : StoredGrafanaReceiver) : List String :=
  c.uid :: c.name :: c.type ::
    (pairStrings c.settings ++ c.secureSettings.map Prod.fst)

/-- Every non-secret string of a stored configuration: everything except the
secure-setting values. -/
def storedPlainStrings (c : StoredUserConfig) : List String :=
  pairStrings c.template_files ++ referencedReceiverNames c.route ++
    c.receivers.flatMap fun r =>
      r.name :: r.grafana_managed_receiver_configs.flatMap storedReceiverPlainStrings

def postableReceiverPlainStrings (c : PostableGrafanaReceiver) : List String :=
  c.uid :: c.name :: c.type ::
    (pairStrings c.settings ++ c.secureSettings.map Prod.fst)

/-- Every non-secret string of a `POST` body: everything except the
secure-setting values. -/
def postablePlainStrings (cfg : PostableUserConfig) : List String :=
  pairStrings cfg.template_files ++
    referencedReceiverNames cfg.alertmanager_config.route ++
    cfg.alertmanager_config.receivers.flatMap fun r =>
      r.name :: r.grafana_managed_receiver_configs.flatMap postableReceiverPlainStrings

/-- Reading redacts values: the strings of a `GET` response are exactly the
non-secret strings of the active configuration. -/
theorem gettableStrings_getConfig (s : ConfigStore) :
    gettableStrings (getConfig s) = storedPlainStrings s.active := by
  unfold gettableStrings getConfig storedPlainStrings
  simp only [List.flatMap_map]
  congr 1
  apply List.flatMap_congr
  intro r _
  unfold redactApiReceiver
  simp only [List.flatMap_map]
  congr 1
  apply List.flatMap_congr
  intro c _
  unfold gettableReceiverStrings redactGrafanaReceiver storedReceiverPlainStrings
  simp [List.map_map, Function.comp]

/-- The keys of prior secure settings are non-secret strings of the prior
configuration. -/
theorem priorSecureSettings_keys_sub (prior : StoredUserConfig)
    (rname cname v : String)
    (hv : v ∈ (priorSecureSettings prior rname cname).map Prod.fst) :
    v ∈ storedPlainStrings prior := by
  unfold priorSecureSettings at hv
  rcases hfind : prior.receivers.find? fun r => r.name == rname with _ | r
  · simp [hfind] at hv
  rcases hfind2 : r.grafana_managed_receiver_configs.find? fun c => c.name == cname with _ | c
  · simp [hfind, hfind2] at hv
  simp only [hfind, hfind2] at hv
  have hr : r ∈ prior.receivers := List.mem_of_find?_eq_some hfind
  have hc : c ∈ r.grafana_managed_receiver_configs := List.mem_of_find?_eq_some hfind2
  unfold storedPlainStrings
  refine List.mem_append_right _ ?_
  refine List.mem_flatMap.mpr ⟨r, hr, ?_⟩
  refine List.mem_cons_of_mem _ ?_
  refine List.mem_flatMap.mpr ⟨c, hc, ?_⟩
  unfold storedReceiverPlainStrings
  exact List.mem_cons_of_mem _ (List.mem_cons_of_mem _ (List.mem_cons_of_mem _
    (List.mem_append_right _ hv)))

/-- Committing a posted configuration introduces no strings beyond the
non-secret strings of the `POST` body and of the prior configuration (in
particular, merged secure-setting *values* are not collected). -/
theorem storedPlainStrings_storedOfPostable (prior : StoredUserConfig)
    (cfg : PostableUserConfig) (v : String)
    (hv : v ∈ storedPlainStrings (storedOfPostable prior cfg)) :
    v ∈ postablePlainStrings cfg ∨ v ∈ storedPlainStrings prior := by
  simp only [storedPlainStrings, storedOfPostable] at hv
  unfold postablePlainStrings
  rcases List.mem_append.mp hv with h | h
  · rcases List.mem_append.mp h with h | h
    · exact Or.inl (List.mem_append_left _ (List.mem_append_left _ h))
    · exact Or.inl (List.mem_append_left _ (List.mem_append_right _ h))
  simp only [List.flatMap_map] at h
  obtain ⟨r, hr, hvr⟩ := List.mem_flatMap.mp h
  unfold storeApiReceiver at hvr
  rcases List.mem_cons.mp hvr with h' | h'
  · refine Or.inl (List.mem_append_right _ ?_)
    exact List.mem_flatMap.mpr ⟨r, hr, h' ▸ List.mem_cons_self _ _⟩
  simp only [List.flatMap_map] at h'
  obtain ⟨c, hc, hvc⟩ := List.mem_flatMap.mp h'
  unfold storedReceiverPlainStrings storeGrafanaReceiver at hvc
  simp only at hvc
  have hmem : v ∈ postableReceiverPlainStrings c ∨ v ∈ storedPlainStrings prior := by
    rcases List.mem_cons.mp hvc with h0 | hvc
    · exact Or.inl (h0 ▸ List.mem_cons_self _ _)
    rcases List.mem_cons.mp hvc with h0 | hvc
    · exact Or.inl (List.mem_cons_of_mem _ (h0 ▸ List.mem_cons_self _ _))
    rcases List.mem_cons.mp hvc with h0 | hvc
    · exact Or.inl (List.mem_cons_of_mem _ (List.mem_cons_of_mem _
        (h0 ▸ List.mem_cons_self _ _)))
    rcases List.mem_append.mp hvc with h0 | h0
    · exact Or.inl (List.mem_cons_of_mem _ (List.mem_cons_of_mem _
        (List.mem_cons_of_mem _ (List.mem_append_left _ h0))))
    -- v is a key of the merged secure settings: from the posted keys or the
    -- prior keys
    unfold mergeSecureSettings at h0
    rw [List.map_append] at h0
    rcases List.mem_append.mp h0 with h1 | h1
    · exact Or.inl (List.mem_cons_of_mem _ (List.mem_cons_of_mem _
        (List.mem_cons_of_mem _ (List.mem_append_right _ h1))))
    · obtain ⟨p, hp, hpv⟩ := List.mem_map.mp h1
      have : v ∈ (priorSecureSettings prior r.name c.name).map Prod.fst :=
        List.mem_map.mpr ⟨p, (List.mem_filter.mp hp).1, hpv⟩
      exact Or.inr (priorSecureSettings_keys_sub prior r.name c.name v this)
  rcases hmem with h0 | h0
  · refine Or.inl (List.mem_append_right _ ?_)
    refine List.mem_flatMap.mpr ⟨r, hr, List.mem_cons_of_mem _ ?_⟩
    exact List.mem_flatMap.mpr ⟨c, hc, h0⟩
  · exact Or.inr h0

/-! ## Concrete scenario inputs -/

/-- A single alert query with refId `A` and a relative time range. -/
def qA : GrafanaQuery := ⟨"A", some ⟨600, 0⟩⟩

/-- A frame shape with two fields, as a typical time-series result. -/
def frameX : DataFrame := ⟨[⟨"Time", "time"⟩, ⟨"Value", "number"⟩]⟩

/-- A runner that ran `[qA]` and received the debounce-timer's all-`Loading`
snapshot through its subscription (the batch is still in flight). -/
def c3MidFlight : AlertingQueryRunner :=
  (runEvents newRunner [.run [qA], .next (initialState [qA] LoadingState.Loading)]).1

/-- The same runner after its first `cancel()` call. -/
def c3AfterCancel : AlertingQueryRunner := c3MidFlight.cancel.runner

/-! ## Claims -/

/-- C9: calling `run` with an empty query list issues no backend request,
creates no subscription, and immediately emits the single empty result
record `initialState([], Done)` (which is the empty record), leaving the
stored last result unchanged. -/
theorem C9_run_empty_no_request (r : AlertingQueryRunner) :
    r.run [] = { runner := r, emissions := [initialState [] LoadingState.Done], requests := [] } ∧
    initialState [] LoadingState.Done = [] ∧
    (r.run []).runner = r := by
  exact ⟨rfl, rfl, rfl⟩

/-- C10: when the batch request errors, every entry of the runner's current
result — not just some — is set to state `Error` carrying the same converted
query error, while each entry's other fields (time range, series, revision)
are spread through unchanged; the updated record is stored and emitted. -/
theorem C10_error_marks_every_entry (r : AlertingQueryRunner) (e : JsError) :
    (r.onError e).emissions = [mapErrorToPanelData r.lastResult e] ∧
    (r.onError e).runner.lastResult = mapErrorToPanelData r.lastResult e ∧
    mapErrorToPanelData r.lastResult e =
      r.lastResult.map (fun p =>
        (p.1, { p.2 with state := LoadingState.Error, error := some (toDataQueryError e) })) ∧
    ∀ p ∈ mapErrorToPanelData r.lastResult e,
      (p : String × PanelData).2.state = LoadingState.Error ∧
        p.2.error = some (toDataQueryError e) := by
  refine ⟨rfl, rfl, rfl, ?_⟩
  intro p hp
  simp only [mapErrorToPanelData, applyChange, List.mem_map] at hp
  obtain ⟨q, _, rfl⟩ := hp
  exact ⟨rfl, rfl⟩

/-- The result entry produced by the error path for a default panel. -/
def c10Entry : String × PanelData :=
  ("A", { (default : PanelData) with
    state := LoadingState.Error,
    error := some (toDataQueryError ⟨"boom"⟩) })

theorem C10_witness :
    c10Entry.2.state = LoadingState.Error ∧
    c10Entry.2.error = some (toDataQueryError ⟨"boom"⟩) :=
  (C10_error_marks_every_entry
    { subscriptionAssigned := true, lastResult := [("A", default)] } ⟨"boom"⟩).2.2.2
    _ (by decide)

/-- C3, counterexample: after a mid-flight cancel, a second consecutive
`cancel()` is *not* a no-op.  `cancel` neither clears `this.subscription`
nor updates `this.lastResult`, so the stored entries are still `Loading` and
the second call emits the same forced-`Done` record again. -/
theorem C3_counterexample :
    c3MidFlight.cancel.emissions.length = 1 ∧
    c3AfterCancel.cancel.emissions = c3MidFlight.cancel.emissions ∧
    c3AfterCancel.cancel.emissions ≠ [] := by
  refine ⟨rfl, rfl, ?_⟩
  decide

/-- C3, amended: `cancel()` before any subscription was assigned is a no-op;
with a subscription assigned it leaves the runner's fields unchanged and
emits the stored last result with every entry forced to `Done` exactly when
some stored entry was still `Loading` (nothing otherwise) — and therefore a
second consecutive `cancel()` emits the same forced-`Done` record again
whenever the stored result still holds `Loading` entries. -/
theorem C3_amended_cancel (r : AlertingQueryRunner) :
    (r.subscriptionAssigned = false →
      r.cancel = { runner := r, emissions := [], requests := [] }) ∧
    (r.subscriptionAssigned = true →
      r.cancel.runner = r ∧ r.cancel.requests = [] ∧
      ((∃ p ∈ r.lastResult, (p : String × PanelData).2.state = LoadingState.Loading) →
        r.cancel.emissions =
          [r.lastResult.map fun p => (p.1, { p.2 with state := LoadingState.Done })] ∧
        r.cancel.runner.cancel.emissions = r.cancel.emissions) ∧
      ((∀ p ∈ r.lastResult, (p : String × PanelData).2.state ≠ LoadingState.Loading) →
        r.cancel.emissions = [])) := by
  have hrunner : r.cancel.runner = r := by
    unfold AlertingQueryRunner.cancel
    split <;> rfl
  constructor
  · intro hsub
    simp [AlertingQueryRunner.cancel, hsub]
  · intro hsub
    have hcond : (r.lastResult.any fun p => p.2.state == LoadingState.Loading) = true ↔
        ∃ p ∈ r.lastResult, (p : String × PanelData).2.state = LoadingState.Loading := by
      simp [List.any_eq_true]
    refine ⟨hrunner, ?_, ?_, ?_⟩
    · unfold AlertingQueryRunner.cancel
      split <;> rfl
    · intro hex
      have hany := hcond.mpr hex
      constructor
      · simp [AlertingQueryRunner.cancel, hsub, hany, applyChange]
      · rw [hrunner]
    · intro hall
      have hany : (r.lastResult.any fun p => p.2.state == LoadingState.Loading) = false := by
        rw [← Bool.not_eq_true, hcond]
        push_neg
        exact hall
      simp [AlertingQueryRunner.cancel, hsub, hany]

theorem C3_amended_cancel_witness :
    c3MidFlight.cancel.emissions =
      [c3MidFlight.lastResult.map fun p => (p.1, { p.2 with state := LoadingState.Done })] ∧
    c3MidFlight.cancel.runner.cancel.emissions = c3MidFlight.cancel.emissions ∧
    newRunner.cancel = { runner := newRunner, emissions := [], requests := [] } := by
  have h := C3_amended_cancel c3MidFlight
  have h0 := C3_amended_cancel newRunner
  have hmid := (h.2 (by decide)).2.2.1 ⟨("A",
    { state := LoadingState.Loading, series := [],
      timeRange := relativeToTimeRange ⟨600, 0⟩, structureRev := some 1 }), by decide, rfl⟩
  exact ⟨hmid.1, hmid.2, h0.1 (by decide)⟩

/-- A fetch error used in the revision scenario. -/
def c4Err : JsError := ⟨"network error"⟩

/-- The record delivered for a successful fast batch: `mapToPanelData` over
the response `results.A.frames = [frameX]`. -/
def c4Success : List (String × PanelData) :=
  (mapToPanelData (initialState [qA] LoadingState.Loading) [("A", [frameX])]).getD []

/-- The record delivered when the fetch fails fast: `catchError` maps the
error over the all-`Loading` initial record. -/
def c4Failure : List (String × PanelData) :=
  mapErrorToPanelData (initialState [qA] LoadingState.Loading) c4Err

/-- Three consecutive `run` calls on one runner: success with shape
`[frameX]`, a fetch failure, success with shape `[frameX]` again (each batch
settling before the debounce, so only the resolved record is delivered). -/
def c4Events : List RunnerEvent :=
  [.run [qA], .next c4Success, .run [qA], .next c4Failure, .run [qA], .next c4Success]

/-- The successive results delivered for refId `A` in that scenario. -/
def c4Delivered : List PanelData :=
  deliveredFor "A" (runEvents newRunner c4Events).2

/-- C4, counterexample: the revision discipline claimed — increment (by one)
exactly when the shape differs from the previous *successful* result, equal
otherwise — fails on the code.  In the success/failure/success scenario the
revisions are 1, 2, 3: the third result's shape equals that of the previous
successful result (the first), yet its revision still increments, because
`setStructureRevision` compares against the immediately previous delivered
result (the error result, empty series), not the previous successful one. -/
theorem C4_counterexample :
    structureRevisionClaimCheck c4Delivered = false ∧
    c4Delivered.map PanelData.structureRev = [some 1, some 2, some 3] ∧
    c4Delivered.map PanelData.state =
      [LoadingState.Done, LoadingState.Error, LoadingState.Done] ∧
    c4Delivered.map PanelData.series = [[frameX], [], [frameX]] := by
  exact ⟨rfl, rfl, rfl, rfl⟩

/-- C4, amended: the revision is non-decreasing, a result with no prior
revision gets revision 1, and — when the immediately previous delivered
result carries a non-zero revision — the revision increments by exactly one
when the frame shape differs from that immediately previous result (error
results included) and stays equal when it matches. -/
theorem C4_amended_revision (data prev : PanelData) (rp : Nat)
    (hrev : prev.structureRev = some rp) (hrp : rp ≠ 0) :
    (setStructureRevision data (some prev)).structureRev =
      some (if sameStructure data.series prev.series then rp else rp + 1) ∧
    (sameStructure data.series prev.series = true →
      (setStructureRevision data (some prev)).structureRev = some rp) ∧
    (sameStructure data.series prev.series = false →
      (setStructureRevision data (some prev)).structureRev = some (rp + 1)) ∧
    (∀ rc, (setStructureRevision data (some prev)).structureRev = some rc → rp ≤ rc) ∧
    (setStructureRevision data none).structureRev = some 1 := by
  have hmain : (setStructureRevision data (some prev)).structureRev =
      some (if sameStructure data.series prev.series then rp else rp + 1) := by
    simp [setStructureRevision, preProcessPanelData, sameStructure, hrev, hrp]
  refine ⟨hmain, ?_, ?_, ?_, rfl⟩
  · intro hs
    rw [hmain, hs]
    simp
  · intro hs
    rw [hmain, hs]
    simp
  · intro rc hrc
    rw [hmain] at hrc
    rcases Option.some.inj hrc with rfl
    split <;> omega

/-- A previous result with revision 1 and shape `[frameX]`. -/
def c4PrevPanel : PanelData :=
  { state := LoadingState.Done, series := [frameX], timeRange := ⟨0, 0⟩, structureRev := some 1 }

/-- A new result with a different (empty) shape. -/
def c4DataPanel : PanelData :=
  { state := LoadingState.Done, series := [], timeRange := ⟨0, 0⟩ }

theorem C4_amended_revision_witness :
    (setStructureRevision c4DataPanel (some c4PrevPanel)).structureRev = some 2 :=
  (C4_amended_revision c4DataPanel c4PrevPanel 1 rfl (by decide)).2.2.1 rfl

/-- When the response mapping succeeds, the produced record is keyed exactly
by the response's refIds and every entry is `Done`. -/
theorem mapToPanelData_keys_done (dbq : List (String × PanelData)) :
    ∀ (results : List (String × List DataFrame)) (out : List (String × PanelData)),
      mapToPanelData dbq results = some out →
      out.map Prod.fst = results.map Prod.fst ∧
        ∀ p ∈ out, (p : String × PanelData).2.state = LoadingState.Done
  | [], out, h => by
    simp only [mapToPanelData, Option.some.injEq] at h
    subst h
    simp
  | (refId, frames) :: rest, out, h => by
    simp only [mapToPanelData] at h
    cases hl : dbq.lookup refId with
    | none =>
      rw [hl] at h
      simp at h
    | some d =>
      rw [hl] at h
      cases hrest : mapToPanelData dbq rest with
      | none =>
        rw [hrest] at h
        simp at h
      | some tail =>
        rw [hrest] at h
        simp only [Option.map_some', Option.some.injEq] at h
        subst h
        obtain ⟨ht, hstates⟩ := mapToPanelData_keys_done dbq rest tail hrest
        refine ⟨by simp [ht], ?_⟩
        intro p hp
        rcases List.mem_cons.mp hp with rfl | hp
        · rfl
        · exact hstates p hp

/-- The all-`Loading` initial record is keyed by the queries' refIds with
the requested state and empty series. -/
theorem initialState_spec (queries : List GrafanaQuery) (s : LoadingState) :
    (initialState queries s).map Prod.fst = queries.map GrafanaQuery.refId ∧
    ∀ p ∈ initialState queries s,
      (p : String × PanelData).2.state = s ∧ p.2.series = [] := by
  constructor
  · simp [initialState, List.map_map]
  · intro p hp
    simp only [initialState, List.mem_map] at hp
    obtain ⟨q, _, rfl⟩ := hp
    exact ⟨rfl, rfl⟩

/-- The error mapping preserves the keys and marks every entry `Error`. -/
theorem mapErrorToPanelData_spec (l : List (String × PanelData)) (e : JsError) :
    (mapErrorToPanelData l e).map Prod.fst = l.map Prod.fst ∧
    ∀ p ∈ mapErrorToPanelData l e,
      (p : String × PanelData).2.state = LoadingState.Error := by
  constructor
  · simp [mapErrorToPanelData, applyChange, List.map_map]
  · intro p hp
    simp only [mapErrorToPanelData, applyChange, List.mem_map] at hp
    obtain ⟨q, _, rfl⟩ := hp
    rfl

/-- The environment of a batch that succeeds with shape `[frameX]` before
the 200 ms debounce timer fires. -/
def c8FastBehavior : FetchBehavior := ⟨.response [("A", [frameX])], true⟩

/-- C8, counterexample: when the batch settles before the 200 ms debounce
timer, `takeUntil` suppresses the timer's all-`Loading` snapshot, so the
run's one and only emission is already the terminal `Done` record — no
`Loading` state is ever emitted for the query, contradicting "the initial
state emitted for every query being Loading". -/
theorem C8_counterexample :
    (runRequestEmissions [qA] c8FastBehavior).map
        (fun ems => ems.map fun e => e.map fun p => (p.1, p.2.state)) =
      some [[("A", LoadingState.Done)]] := rfl

/-- C8, amended: a non-empty `run` issues exactly one batch `POST` to
`/api/v1/eval`; the all-`Loading` (empty-series) snapshot, keyed by every
query's refId, is emitted first only when the batch has not settled within
the 200 ms debounce window, and when the batch settles within it the
terminal record is the only emission; the final emission is terminal in
every case — `Done` per response entry on success (keyed exactly by the
response's refIds), `Error` on failure. -/
theorem C8_amended_run_contract (queries : List GrafanaQuery) (b : FetchBehavior)
    (ems : List (List (String × PanelData)))
    (hne : queries ≠ [])
    (hems : runRequestEmissions queries b = some ems) :
    ((newRunner.run queries).requests = [runRequestRequest queries] ∧
      (runRequestRequest queries).url = "/api/v1/eval" ∧
      (runRequestRequest queries).method = "POST") ∧
    (b.resolvesBeforeDebounce = false →
      ems.head? = some (initialState queries LoadingState.Loading) ∧
      (initialState queries LoadingState.Loading).map Prod.fst =
        queries.map GrafanaQuery.refId ∧
      ∀ p ∈ initialState queries LoadingState.Loading,
        (p : String × PanelData).2.state = LoadingState.Loading ∧ p.2.series = []) ∧
    (b.resolvesBeforeDebounce = true → ems.length = 1) ∧
    (∃ lastEm, ems.getLast? = some lastEm ∧
      ∀ p ∈ lastEm, (p : String × PanelData).2.state = LoadingState.Done ∨
        (p : String × PanelData).2.state = LoadingState.Error) ∧
    (∀ results, b.result = FetchResult.response results →
      ∃ lastEm, ems.getLast? = some lastEm ∧
        lastEm.map Prod.fst = results.map Prod.fst) := by
  have hlen : ¬ queries.length = 0 := by
    simpa [List.length_eq_zero] using hne
  simp only [runRequestEmissions, Option.map_eq_some'] at hems
  obtain ⟨rv, hrv, hemseq⟩ := hems
  have hterm : ∀ p ∈ rv, (p : String × PanelData).2.state = LoadingState.Done ∨
      (p : String × PanelData).2.state = LoadingState.Error := by
    intro p hp
    cases hres : b.result with
    | response results =>
      rw [hres] at hrv
      exact Or.inl ((mapToPanelData_keys_done _ results rv hrv).2 p hp)
    | failure e =>
      rw [hres] at hrv
      rcases Option.some.inj hrv with rfl
      exact Or.inr ((mapErrorToPanelData_spec _ e).2 p hp)
  have hlast : ems.getLast? = some rv := by
    rw [← hemseq]
    cases b.resolvesBeforeDebounce <;> rfl
  refine ⟨⟨?_, rfl, rfl⟩, ?_, ?_, ⟨rv, hlast, hterm⟩, ?_⟩
  · simp [AlertingQueryRunner.run, hlen]
  · intro hslow
    rw [hslow] at hemseq
    refine ⟨?_, (initialState_spec queries LoadingState.Loading).1,
      (initialState_spec queries LoadingState.Loading).2⟩
    rw [← hemseq]
    rfl
  · intro hfast
    rw [hfast] at hemseq
    rw [← hemseq]
    rfl
  · intro results hres
    rw [hres] at hrv
    exact ⟨rv, hlast, (mapToPanelData_keys_done _ results rv hrv).1⟩

/-- The environment of a batch failing only after the debounce fired. -/
def c8SlowFailure : FetchBehavior := ⟨.failure ⟨"timeout"⟩, false⟩

theorem C8_amended_run_contract_witness :
    (newRunner.run [qA]).requests = [runRequestRequest [qA]] ∧
    (runRequestRequest [qA]).url = "/api/v1/eval" ∧
    ((runRequestEmissions [qA] c8SlowFailure).getD []).head? =
      some (initialState [qA] LoadingState.Loading) := by
  have h := C8_amended_run_contract [qA] c8SlowFailure
    (mapErrorToPanelData (initialState [qA] LoadingState.Loading) ⟨"timeout"⟩ ::
      [initialState [qA] LoadingState.Loading]).reverse
    (by decide) rfl
  exact ⟨h.1.1, h.1.2.1, (h.2.1 rfl).1⟩

/-! ## Claims on the configuration store -/

/-- C6: the receiver-usage check is exactly transitive reachability in the
routing tree: `isReceiverUsed(r, c)` returns true iff some route node — the
root or any node reachable through nested routes, at any depth — has its
`receiver` field equal to `r`; deleting a receiver for which this holds
must therefore be rejected. -/
theorem C6_isReceiverUsed_iff_reachable (r : String) (c : AlertManagerCortexConfig) :
    isReceiverUsed r c = true ↔ ∃ n ∈ configRouteNodes c, n.receiver = some r := by
  unfold isReceiverUsed configRouteNodes
  cases c.alertmanager_config.route with
  | none => simp
  | some route => exact isReceiverUsedInRoute_iff r route

/-- C7: on a blank instance with no prior configuration, `GET` returns
exactly one receiver, named `grafana-default-email`, whose single
`grafana_managed_receiver_config` has `isDefault = true` and an empty
`secureFields` mapping, and the root route's receiver is
`grafana-default-email`. -/
theorem C7_blank_get_default :
    (getConfig initialStore).receivers.map GettableApiReceiver.name =
      ["grafana-default-email"] ∧
    ((getConfig initialStore).receivers.map fun r =>
        r.grafana_managed_receiver_configs.map fun c => (c.isDefault, c.secureFields)) =
      [[(true, ([] : List (String × Bool)))]] ∧
    (getConfig initialStore).route.map Route.receiver =
      some (some "grafana-default-email") :=
  ⟨rfl, rfl, rfl⟩

/-- C2: saving is apply-then-commit and atomic: the `POST` answers 202
exactly when structural validation and the dry-run apply both succeed, in
which case the candidate becomes active; any failure answers a non-2xx
status (400) with the previously active configuration — and hence every
subsequent `GET` — fully unchanged. -/
theorem C2_post_atomic (applyOk : StoredUserConfig → Bool) (store : ConfigStore)
    (cfg : PostableUserConfig) :
    ((postConfig applyOk store cfg).1 = 202 ∨ (postConfig applyOk store cfg).1 = 400) ∧
    ((postConfig applyOk store cfg).1 ≠ 202 →
      (postConfig applyOk store cfg).2 = store ∧
      getConfig (postConfig applyOk store cfg).2 = getConfig store) ∧
    (validateConfig cfg = false ∨ applyOk (storedOfPostable store.active cfg) = false →
      (postConfig applyOk store cfg).1 = 400 ∧ (postConfig applyOk store cfg).2 = store) ∧
    (validateConfig cfg = true → applyOk (storedOfPostable store.active cfg) = true →
      postConfig applyOk store cfg =
        (202, { active := storedOfPostable store.active cfg })) := by
  by_cases hval : validateConfig cfg = true
  · by_cases happ : applyOk (storedOfPostable store.active cfg) = true
    · have hpc : postConfig applyOk store cfg =
          (202, { active := storedOfPostable store.active cfg }) := by
        unfold postConfig
        rw [if_pos hval, if_pos happ]
      rw [hpc]
      refine ⟨Or.inl rfl, fun h => absurd rfl h, ?_, fun _ _ => rfl⟩
      rintro (h | h)
      · simp [hval] at h
      · simp [happ] at h
    · have hpc : postConfig applyOk store cfg = (400, store) := by
        unfold postConfig
        rw [if_pos hval, if_neg happ]
      rw [hpc]
      exact ⟨Or.inr rfl, fun _ => ⟨rfl, rfl⟩, fun _ => ⟨rfl, rfl⟩,
        fun _ h => absurd h happ⟩
  · have hpc : postConfig applyOk store cfg = (400, store) := by
      unfold postConfig
      rw [if_neg hval]
    rw [hpc]
    exact ⟨Or.inr rfl, fun _ => ⟨rfl, rfl⟩, fun _ => ⟨rfl, rfl⟩,
      fun h _ => absurd h hval⟩

/-- The slack channel of the integration test's `POST` body, with the
claim's example secret `secureSettings.token = "x"`. -/
def slackChannel : PostableGrafanaReceiver :=
  { uid := ""
    name := "slack.receiver"
    type := "slack"
    disableResolveMessage := false
    sendReminder := true
    settings := [("iconEmoji", ""), ("iconUrl", ""), ("mentionGroups", ""),
      ("mentionUsers", ""), ("recipient", "#unified-alerting-test"), ("username", "")]
    secureSettings := [("token", "x"), ("url", "https://hooks.slack.example/services/S1")] }

def slackReceiver : PostableApiReceiver :=
  { name := "slack.receiver", grafana_managed_receiver_configs := [slackChannel] }

def slackPostConfig : PostableUserConfig :=
  { template_files := []
    alertmanager_config :=
      { route := some (.mk (some "slack.receiver") none), receivers := [slackReceiver] } }

theorem validateConfig_slack : validateConfig slackPostConfig = true := by
  simp [validateConfig, slackPostConfig, referencedReceiverNames, Route.nodes,
    Route.receiver, slackReceiver]

theorem C2_post_atomic_witness :
    (postConfig (fun _ => false) initialStore slackPostConfig).1 = 400 ∧
    getConfig (postConfig (fun _ => false) initialStore slackPostConfig).2 =
      getConfig initialStore := by
  have h := C2_post_atomic (fun _ => false) initialStore slackPostConfig
  refine ⟨(h.2.2.1 (Or.inr rfl)).1, (h.2.1 ?_).2⟩
  rw [(h.2.2.1 (Or.inr rfl)).1]
  decide

/-- The slack channel exactly as in the integration test's `POST` body: the
secure setting `token` is supplied with the *empty* string. -/
def c5Channel : PostableGrafanaReceiver :=
  { slackChannel with
    secureSettings := [("token", ""), ("url", "https://hooks.slack.example/services/S1")] }

def c5PostConfig : PostableUserConfig :=
  { template_files := []
    alertmanager_config :=
      { route := some (.mk (some "slack.receiver") none)
        receivers :=
          [{ name := "slack.receiver", grafana_managed_receiver_configs := [c5Channel] }] } }

theorem validateConfig_c5 : validateConfig c5PostConfig = true := by
  simp [validateConfig, c5PostConfig, referencedReceiverNames, Route.nodes, Route.receiver]

/-- C5, counterexample: in the integration test's scenario the prior active
configuration (the default) stores no secret at all, and the `POST` supplies
the secure setting `token` with the *empty* string — yet the accepted save
stores it and the subsequent read reports `secureFields.token == true`
(exactly what the test asserts at lines 92–95 and 149–152).  This refutes
"a secure field supplied with an empty value leaves the previously stored
secret as it was, and the read's presence flags reflect that": the prior
secret was absent, so the flag would have to be absent/false. -/
theorem C5_counterexample :
    (defaultStoredConfig.receivers.all fun r =>
      r.grafana_managed_receiver_configs.all fun c => c.secureSettings.isEmpty) = true ∧
    (postConfig (fun _ => true) initialStore c5PostConfig).1 = 202 ∧
    ((getConfig (postConfig (fun _ => true) initialStore c5PostConfig).2).receivers.map
        fun r => r.grafana_managed_receiver_configs.map fun c => c.secureFields) =
      [[[("token", true), ("url", true)]]] := by
  have hpc : postConfig (fun _ => true) initialStore c5PostConfig =
      (202, { active := storedOfPostable initialStore.active c5PostConfig }) := by
    unfold postConfig
    rw [if_pos validateConfig_c5, if_pos rfl]
  rw [hpc]
  exact ⟨rfl, rfl, rfl⟩

/-- `lookup` over a key-preserving `map` to presence flags. -/
theorem lookup_map_presence (l : List (String × String)) (k : String) :
    ((l.map fun p => (p.1, true)).lookup k) = (l.lookup k).map fun _ => true := by
  induction l with
  | nil => rfl
  | cons hd tl ih =>
    simp only [List.map_cons, List.lookup]
    cases k == hd.1 <;> simp [ih]

/-- `lookup` in a filtered prior: entries whose key the supplied list also
has are dropped, but a key the supplied list lacks is looked up as before. -/
theorem lookup_filter_not_supplied (prior supplied : List (String × String)) (k : String)
    (hk : (supplied.lookup k).isNone) :
    ((prior.filter fun p => (supplied.lookup p.1).isNone).lookup k) = prior.lookup k := by
  induction prior with
  | nil => rfl
  | cons hd tl ih =>
    by_cases hhd : k == hd.1
    · have hkey : (supplied.lookup hd.1).isNone := by
        rwa [← (beq_iff_eq.mp hhd)]
      simp only [List.filter_cons, hkey, if_pos]
      simp only [List.lookup, hhd]
    · cases hfil : (supplied.lookup hd.1).isNone with
      | true =>
        simp only [List.filter_cons, hfil, if_pos]
        simp only [List.lookup, hhd, ih]
      | false =>
        simp only [List.filter_cons, hfil]
        simp only [Bool.false_eq_true, if_false, ih]
        simp only [List.lookup, hhd]

/-- `lookup` across the append of supplied and retained-prior entries. -/
theorem lookup_append_or (l₁ l₂ : List (String × String)) (k : String) :
    ((l₁ ++ l₂).lookup k) = ((l₁.lookup k).or (l₂.lookup k)) := by
  induction l₁ with
  | nil => simp [List.lookup]
  | cons hd tl ih =>
    simp only [List.cons_append, List.lookup]
    cases k == hd.1 <;> simp [ih]

/-- C5, amended: a secure setting supplied in the save request — with *any*
value, the empty string included — replaces the prior stored secret; only a
secure field omitted from the request retains the previously stored value;
and the read's presence flag for a key is `true` exactly when a secret is
stored under that key after the merge. -/
theorem C5_amended_merge (prior supplied : List (String × String)) (k : String) :
    ((supplied.lookup k).isSome →
      (mergeSecureSettings prior supplied).lookup k = supplied.lookup k) ∧
    ((supplied.lookup k).isNone →
      (mergeSecureSettings prior supplied).lookup k = prior.lookup k) ∧
    ((((mergeSecureSettings prior supplied).map fun p => (p.1, true)).lookup k) = some true ↔
      ((mergeSecureSettings prior supplied).lookup k).isSome) := by
  refine ⟨?_, ?_, ?_⟩
  · intro hsome
    unfold mergeSecureSettings
    rw [lookup_append_or]
    cases h : supplied.lookup k with
    | none => rw [h] at hsome; cases hsome
    | some v => rfl
  · intro hnone
    unfold mergeSecureSettings
    rw [lookup_append_or, lookup_filter_not_supplied prior supplied k hnone]
    cases h : supplied.lookup k with
    | none => rfl
    | some v => rw [h] at hnone; cases hnone
  · rw [lookup_map_presence]
    cases (mergeSecureSettings prior supplied).lookup k <;> simp

theorem C5_amended_merge_witness :
    (mergeSecureSettings [("token", "old"), ("keep", "z")] [("token", "")]).lookup "token" =
      some "" ∧
    (mergeSecureSettings [("token", "old"), ("keep", "z")] [("token", "")]).lookup "keep" =
      some "z" := by
  have h1 := (C5_amended_merge [("token", "old"), ("keep", "z")] [("token", "")] "token").1
  have h2 := (C5_amended_merge [("token", "old"), ("keep", "z")] [("token", "")] "keep").2.1
  exact ⟨(h1 (by decide)).trans (by decide), (h2 (by decide)).trans (by decide)⟩

theorem referencedReceiverNames_single (n : String) :
    referencedReceiverNames (some (.mk (some n) none)) = [n] := by
  simp [referencedReceiverNames, Route.nodes, Route.receiver]

/-- C1: reading a saved configuration never returns a secure setting's
value.  After any accepted save (`202`) of a configuration carrying a secure
setting `(k, v)`, the subsequent `GET` exposes for that channel only the
field-name-to-boolean presence entry `(k, true)` under `secureFields`; and
the secret `v` occurs nowhere in the read result unless it coincides with
non-secret material (a plaintext setting, name, type, key or template) of
the posted body or of the prior configuration. -/
theorem C1_read_never_exposes_secret (applyOk : StoredUserConfig → Bool)
    (store : ConfigStore) (cfg : PostableUserConfig) (store' : ConfigStore)
    (hpost : postConfig applyOk store cfg = (202, store'))
    (r : PostableApiReceiver) (hr : r ∈ cfg.alertmanager_config.receivers)
    (rc : PostableGrafanaReceiver) (hrc : rc ∈ r.grafana_managed_receiver_configs)
    (k v : String) (hkv : (k, v) ∈ rc.secureSettings) :
    (∃ gr ∈ (getConfig store').receivers, GettableApiReceiver.name gr = r.name ∧
      ∃ gc ∈ gr.grafana_managed_receiver_configs,
        GettableGrafanaReceiver.name gc = rc.name ∧ (k, true) ∈ gc.secureFields) ∧
    (v ∉ postablePlainStrings cfg → v ∉ storedPlainStrings store.active →
      v ∉ gettableStrings (getConfig store')) := by
  have hstore' : store' = { active := storedOfPostable store.active cfg } := by
    unfold postConfig at hpost
    by_cases hval : validateConfig cfg = true
    · rw [if_pos hval] at hpost
      by_cases happ : applyOk (storedOfPostable store.active cfg) = true
      · rw [if_pos happ] at hpost
        injection hpost with _ h2
        exact h2.symm
      · rw [if_neg happ] at hpost
        injection hpost with h1 _
        exact absurd h1 (by decide)
    · rw [if_neg hval] at hpost
      injection hpost with h1 _
      exact absurd h1 (by decide)
  subst hstore'
  constructor
  · have hrecv : (getConfig { active := storedOfPostable store.active cfg }).receivers =
        (cfg.alertmanager_config.receivers.map (storeApiReceiver store.active)).map
          redactApiReceiver := rfl
    refine ⟨redactApiReceiver (storeApiReceiver store.active r), ?_, rfl, ?_⟩
    · rw [hrecv]
      exact List.mem_map_of_mem _ (List.mem_map_of_mem _ hr)
    · refine ⟨redactGrafanaReceiver (storeGrafanaReceiver store.active r.name rc), ?_, rfl, ?_⟩
      · exact List.mem_map_of_mem _ (List.mem_map_of_mem _ hrc)
      · have hmem : (k, v) ∈
            mergeSecureSettings (priorSecureSettings store.active r.name rc.name)
              rc.secureSettings :=
          List.mem_append_left _ hkv
        exact List.mem_map.mpr ⟨(k, v), hmem, rfl⟩
  · intro h1 h2 hv
    rw [gettableStrings_getConfig] at hv
    rcases storedPlainStrings_storedOfPostable store.active cfg v hv with h | h
    · exact h1 h
    · exact h2 h

theorem C1_read_never_exposes_secret_witness :
    (∃ gr ∈ (getConfig { active := storedOfPostable initialStore.active slackPostConfig }).receivers,
      GettableApiReceiver.name gr = slackReceiver.name ∧
      ∃ gc ∈ gr.grafana_managed_receiver_configs,
        GettableGrafanaReceiver.name gc = slackChannel.name ∧
          ("token", true) ∈ gc.secureFields) ∧
    "x" ∉ gettableStrings (getConfig { active := storedOfPostable initialStore.active slackPostConfig }) := by
  have h := C1_read_never_exposes_secret (fun _ => true) initialStore slackPostConfig
    { active := storedOfPostable initialStore.active slackPostConfig }
    (by unfold postConfig; rw [if_pos validateConfig_slack, if_pos rfl])
    slackReceiver (by decide) slackChannel (by decide) "token" "x" (by decide)
  refine ⟨h.1, h.2 ?_ ?_⟩
  · simp only [postablePlainStrings, slackPostConfig, slackReceiver, slackChannel,
      referencedReceiverNames_single]
    decide
  · show "x" ∉ storedPlainStrings defaultStoredConfig
    simp only [storedPlainStrings, defaultStoredConfig, referencedReceiverNames_single]
    decide

end Grafana
